import Mathlib

/-!
Shallow embedding of the Node-MPV core: the IPC request correlator
(`src/lib/ipcInterface/ipcInterface.ts`), the error-object builder
(`src/lib/error.ts`), and the load orchestrator (the `load` method of the
`mpv` class).  Machine state is passed explicitly; the JavaScript
exception flow is modelled by results of the form `state × Option throw`,
where the state component is the mutable state at the moment the function
returned or the exception escaped (in-place mutations performed before a
throw persist, exactly as for a JS object field).
-/

namespace NodeMPV

/-! ### error.ts -/

/-- Embeds the `messageDict` table of `ErrorHandler` (error.ts lines 24-34).
Indexing a JS object out of range yields `undefined`, modelled as `none`. -/
def messageDict : Nat → Option String
  | 0 => some "Unable to load file or stream"
  | 1 => some "Invalid argument"
  | 2 => some "Binary not found"
  | 3 => some "ipcCommand invalid"
  | 4 => some "Unable to bind IPC socket"
  | 5 => some "Timeout"
  | 6 => some "MPV is already running"
  | 7 => some "Could not send IPC message"
  | 8 => some "MPV is not running"
  | _ => none

/-- Embeds the `ErrorObject` interface of error.ts.  Optional / possibly
`undefined` fields are `Option`s.  The `options` field (valid argument
alternatives) is a string-to-string object, modelled as a pair list. -/
structure ErrorObject where
  errcode : Nat
  verbose : Option String
  method : String
  arguments : Option (List String)
  errmessage : Option String
  options : Option (List (String × String))
deriving DecidableEq, Repr

/-- Embeds `ErrorHandler.errorMessage` (error.ts lines 53-66): builds the
structured error object from the code table. -/
def errorMessage (errorCode : Nat) (method : String)
    (args : Option (List String)) (errmsg : Option String)
    (options : Option (List (String × String))) : ErrorObject :=
  { errcode := errorCode
    verbose := messageDict errorCode
    method := method
    arguments := args
    errmessage := errmsg
    options := options }

/-! ### ipcRequest (source file absent from src) -/

/-- Modelled from the spec: the `ipcRequest` class
(`src/lib/ipcInterface/ipcRequest`, imported by ipcInterface.ts but not
included under src) stores the original command arguments of one in-flight
request, "retained for diagnostic error messages" (spec, section 3,
PendingRequest).  Its resolve/fail completion handle is modelled by the
`completions` log of `IpcState`; per spec section 4.3 a rejection carries
"the protocol's reported error string and the original command arguments". -/
structure ipcRequest where
  args : List String
deriving DecidableEq, Repr

/-- Records one resolve or reject call made by the dispatch path, modelling
the completion handle of the spec's PendingRequest.  `resolved` carries
`JSONmessage.data`; `failedWith` carries the peer's reported error value and
the stored original command arguments (see `ipcRequest`). -/
inductive Completion where
  | resolved (data : Option String)
  | failedWith (error : Option String) (args : List String)
deriving DecidableEq, Repr

/-! ### ipcInterface.ts -/

/-- A parsed JSON message from the socket, keeping exactly the fields
`dataHandler` inspects: `request_id` (a cuid string when present; `none`
models an absent or falsy field), `error`, and `data`.  The payload of
`data` is abstracted to a string. -/
structure JsonMsg where
  request_id : Option String
  error : Option String
  data : Option String
deriving DecidableEq, Repr

/-- One substring produced by `data.toString().split('\n')` in `dataHandler`
(ipcInterface.ts line 92), as the handler observes it: zero-length,
unparseable by `JSON.parse`, or parsed to a `JsonMsg`. -/
inductive Msg where
  | empty
  | malformed
  | parsed (j : JsonMsg)
deriving DecidableEq, Repr

/-- Exceptions that can escape the dispatch path: `JSON.parse` throwing on a
malformed message, or the `TypeError` raised by
`this.ipcRequests[id].resolve`/`.reject` when no entry exists for `id`. -/
inductive DispatchThrow where
  | jsonParseError
  | noSuchRequest (id : String)
deriving DecidableEq, Repr

/-- Exceptions that can escape `send`: the error-object throw when the
socket is destroyed (ipcInterface.ts line 250), or the `ReferenceError` in
the catch branch (line 268), which names an undefined identifier `message`
before `reject` can run. -/
inductive SendThrow where
  | notRunning (e : ErrorObject)
  | writeFailRefError
deriving DecidableEq, Repr

/-- State of an `ipcInterface` object together with its socket:
`destroyed` is `this.socket.destroyed`; `ipcRequests` is the pending
request table (a JS object keyed by cuid strings, so keys are unique);
`written` logs each successful `socket.write` of a request as the pair
(command list, request id), abstracting JSON serialization; `events` logs
the messages emitted as `message` events, in order; `completions` logs the
resolve/reject calls made on `ipcRequest` objects, in order. -/
structure IpcState where
  destroyed : Bool
  ipcRequests : AList (fun _ : String => ipcRequest)
  written : List (List String × String)
  events : List JsonMsg
  completions : List (String × Completion)

/-- Embeds `closeHandler` (ipcInterface.ts lines 59-66): on a peer-initiated
close it only calls `this.socket.destroy()` (plus an optional debug log);
the pending request table is not touched. -/
def closeHandler (st : IpcState) : IpcState :=
  { st with destroyed := true }

/-- Embeds the body of the `messages.forEach` callback of `dataHandler`
(ipcInterface.ts lines 95-118) for a single split substring.  An escaping
exception is the second component; the first component is the state at the
moment of return or escape. -/
def processMsg (st : IpcState) : Msg → IpcState × Option DispatchThrow
  | .empty => (st, none)
  | .malformed => (st, some .jsonParseError)
  | .parsed j =>
    match j.request_id with
    | some id =>
      -- JS truthiness of a string is non-emptiness; `!== 0` never fails
      -- for a string value.
      if id ≠ "" then
        if j.error = some "success" then
          match st.ipcRequests.lookup id with
          | some _ =>
            ({ st with ipcRequests := st.ipcRequests.erase id
                       completions := st.completions ++ [(id, .resolved j.data)] },
             none)
          | none => (st, some (.noSuchRequest id))
        else
          match st.ipcRequests.lookup id with
          | some req =>
            ({ st with ipcRequests := st.ipcRequests.erase id
                       completions := st.completions ++ [(id, .failedWith j.error req.args)] },
             none)
          | none => (st, some (.noSuchRequest id))
      else
        ({ st with events := st.events ++ [j] }, none)
    | none =>
      ({ st with events := st.events ++ [j] }, none)

/-- Embeds `dataHandler` (ipcInterface.ts lines 90-119) applied to the list
of substrings obtained from splitting one delivered chunk on the line
terminator.  `forEach` offers no exception handling: a throw inside the
callback ends the iteration and escapes, while mutations made by earlier
iterations persist. -/
def dataHandler (st : IpcState) : List Msg → IpcState × Option DispatchThrow
  | [] => (st, none)
  | m :: rest =>
    match processMsg st m with
    | (st', none) => dataHandler st' rest
    | r => r

/-- Embeds `send` (ipcInterface.ts lines 248-270).  `freshId` stands for the
value produced by `cuid()`, `caller` for `getCaller()`, and `writeOk` for
whether `this.socket.write` succeeds.  Note line 264: on a successful write
the entry is deleted from `ipcRequests` immediately.  In the catch branch
the entry is still present but the code references an undefined identifier
(`message`), so a `ReferenceError` escapes before `reject` can run. -/
def send (st : IpcState) (command : List String) (freshId caller : String)
    (writeOk : Bool) : IpcState × Option SendThrow :=
  if st.destroyed then
    (st, some (.notRunning (errorMessage 8 caller none none none)))
  else
    -- `Object.values(command).splice(1)` returns the elements from index 1 on.
    let st1 := { st with
      ipcRequests := st.ipcRequests.insert freshId ⟨command.drop 1⟩ }
    if writeOk then
      ({ st1 with written := st1.written ++ [(command, freshId)]
                  ipcRequests := st1.ipcRequests.erase freshId },
       none)
    else
      (st1, some .writeFailRefError)

/-- Embeds the argument normalization of `command` (ipcInterface.ts lines
120-124): a falsy `args` (absent, `null` or `undefined`) is replaced by the
empty list, then the command list `[command, ...args]` is built. -/
def commandList (c : String) (args : Option (List String)) : List String :=
  let args' := match args with
    | none => []
    | some a => a
  c :: args'

/-- Embeds `command` (ipcInterface.ts lines 120-127): builds the command
list and hands it to `send`. -/
def command (st : IpcState) (c : String) (args : Option (List String))
    (freshId caller : String) (writeOk : Bool) : IpcState × Option SendThrow :=
  send st (commandList c args) freshId caller writeOk

/-! ### the load orchestrator (`load` method of the mpv class) -/

/-- The valid-mode description object passed as the `options` argument of
both precondition errors of `load` (part lines 76-80 and 85-89). -/
def modeDescriptions : List (String × String) :=
  [("replace", "Replace the currently playing title"),
   ("append", "Append the title to the playlist"),
   ("append-play", "Append the title and when it is the only title in the list start playback")]

/-- The diagnostic argument list of the `load` precondition errors:
`options ? [file, mode].concat(options) : [file, mode]`. -/
def loadArgs (file mode : String) (options : Option (List String)) : List String :=
  match options with
  | some o => [file, mode] ++ o
  | none => [file, mode]

/-- Result of the precondition phase of `load`: either a thrown error
object, or fall-through to the `else` branch that creates and connects the
secondary observe socket (the socket is constructed only inside that
branch, so an `err` result involves no socket activity). -/
inductive LoadCheck where
  | err (e : ErrorObject)
  | proceed
deriving DecidableEq, Repr

/-- Embeds the precondition phase of `load` (lines 75-92): reject with
error code 8 if mpv is not running, then with error code 1 if the mode is
not one of the three recognized modes; only otherwise is the observe socket
created. -/
def load (running : Bool) (file mode : String) (options : Option (List String))
    (caller : String) : LoadCheck :=
  if !running then
    .err (errorMessage 8 caller (some (loadArgs file mode options)) none
      (some modeDescriptions))
  else if !(["replace", "append", "append-play"].contains mode) then
    .err (errorMessage 1 caller (some (loadArgs file mode options)) none
      (some modeDescriptions))
  else
    .proceed

/-- State of one load session's observe socket and handler variables:
`destroyed` is `observeSocket.destroyed`; `timeout` and `started` are the
handler's counter and flag (lines 117-119). -/
structure ObsState where
  destroyed : Bool
  timeout : Nat
  started : Bool
deriving DecidableEq, Repr

/-- Embeds the branch after the `loadfile` command and the playlist-size
query (lines 105-114).  The boolean component records whether the session
returned there (silent conclusion, no data handler installed); in that case
`observeSocket.destroy()` has run, captured by the state's `destroyed`
field.  Otherwise the handler variables are set up (`timeout = 0`,
`started = false`) and the data handler is installed. -/
def phaseOne (mode : String) (playlistSize : Nat) : ObsState × Bool :=
  if mode = "append" then
    (⟨true, 0, false⟩, true)
  else if mode = "append-play" && playlistSize > 1 then
    (⟨true, 0, false⟩, true)
  else
    (⟨false, 0, false⟩, false)

/-- One substring produced by splitting a delivery on the observe socket
(line 125): zero-length, unparseable, a parsed message with no truthy
`event` field, or a parsed message with the given event name. -/
inductive ObsMsg where
  | empty
  | malformed
  | nonEvent
  | event (name : String)
deriving DecidableEq, Repr

/-- Exceptions escaping the observe-socket data handler: a `JSON.parse`
failure, the error-code-0 throw on `end-file` (line 142), or the
error-code-5 throw on the poll bound (line 151). -/
inductive LoadThrow where
  | parseCrash
  | endFileErr (e : ErrorObject)
  | timeoutErr (e : ErrorObject)
deriving DecidableEq, Repr

/-- Embeds the `messages.forEach` callback body of the load data handler
(lines 127-146) for one substring.  `start-file` sets `started`;
`file-loaded` with `started` destroys the socket and returns from the
callback (the `return` only ends that callback, so later substrings of the
same delivery are still processed); `end-file` with `started` destroys the
socket and throws the error-code-0 object. -/
def processObsMsg (file caller : String) (st : ObsState) :
    ObsMsg → ObsState × Option LoadThrow
  | .empty => (st, none)
  | .malformed => (st, some .parseCrash)
  | .nonEvent => (st, none)
  | .event name =>
    if name = "start-file" then
      ({ st with started := true }, none)
    else if name = "file-loaded" && st.started then
      ({ st with destroyed := true }, none)
    else if name = "end-file" && st.started then
      ({ st with destroyed := true },
       some (.endFileErr (errorMessage 0 caller (some [file]) none none)))
    else
      (st, none)

/-- Runs the `forEach` over the substrings of one delivery; a throw ends the
iteration and escapes with the state mutated so far. -/
def obsFold (file caller : String) (st : ObsState) :
    List ObsMsg → ObsState × Option LoadThrow
  | [] => (st, none)
  | m :: rest =>
    match processObsMsg file caller st m with
    | (st', none) => obsFold file caller st' rest
    | r => r

/-- Embeds one firing of the observe-socket data handler (lines 121-153):
`timeout += 1` first, then the message loop, then — only when no exception
escaped the loop — the poll-bound check `timeout > 10`, which destroys the
socket and throws the error-code-5 object. -/
def onData (file caller : String) (st : ObsState) (chunk : List ObsMsg) :
    ObsState × Option LoadThrow :=
  match obsFold file caller { st with timeout := st.timeout + 1 } chunk with
  | (st', none) =>
    if st'.timeout > 10 then
      ({ st' with destroyed := true },
       some (.timeoutErr (errorMessage 5 caller (some [file]) none none)))
    else
      (st', none)
  | r => r

/-- Runs the data handler over a trace of deliveries.  A destroyed socket
performs no further I/O, so remaining deliveries are not observed once
`destroyed` holds; a throw ends the run. -/
def runDeliveries (file caller : String) (st : ObsState) :
    List (List ObsMsg) → ObsState × Option LoadThrow
  | [] => (st, none)
  | c :: rest =>
    if st.destroyed then
      (st, none)
    else
      match onData file caller st c with
      | (st', none) => runDeliveries file caller st' rest
      | r => r

/-! ### concrete states used by witnesses and counterexamples -/

/-- A connected interface state with an empty pending-request table. -/
def stOpen : IpcState := ⟨false, ∅, [], [], []⟩

/-- A destroyed-socket interface state with an empty pending-request table. -/
def stClosed : IpcState := ⟨true, ∅, [], [], []⟩

/-- A connected interface state with one pending request, id `r1`, original
arguments `["volume"]`. -/
def stPending : IpcState :=
  ⟨false, AList.insert "r1" ⟨["volume"]⟩ ∅, [], [], []⟩

/-! ### theorems -/

/-- Claim C8: a `send` issued while the socket is destroyed throws the
error-code-8 object (verbose text `MPV is not running`) built from the
caller name, leaves the whole state — in particular the pending-request
table — exactly as it was, and writes nothing to the socket. -/
theorem send_while_destroyed_rejects (st : IpcState) (cmd : List String)
    (freshId caller : String) (writeOk : Bool) (h : st.destroyed = true) :
    send st cmd freshId caller writeOk =
      (st, some (.notRunning (errorMessage 8 caller none none none))) := by
  simp [send, h]

/-- Witness for C8: with the concrete destroyed state `stClosed`, sending
`["pause"]` throws the not-running error and the table stays empty. -/
theorem send_while_destroyed_rejects_witness :
    stClosed.destroyed = true ∧
    send stClosed ["pause"] "r9" "pause()" true =
      (stClosed, some (.notRunning (errorMessage 8 "pause()" none none none))) ∧
    stClosed.ipcRequests.lookup "r9" = none :=
  ⟨rfl, send_while_destroyed_rejects stClosed ["pause"] "r9" "pause()" true rfl,
   by decide⟩

/-- Claim C10: the façade's generic `command` with an absent (falsy)
argument list builds the command list `[c]` alone and behaves exactly as if
the empty list had been passed. -/
theorem command_absent_args_empty (st : IpcState) (c : String)
    (freshId caller : String) (writeOk : Bool) :
    commandList c none = [c] ∧
    command st c none freshId caller writeOk =
      command st c (some []) freshId caller writeOk :=
  ⟨rfl, rfl⟩

/-- Claim C9: a `load` call while the player is not running throws the
error-code-8 (not running) object, and a call with an unrecognized mode
throws the error-code-1 (invalid argument) object; in both cases the result
is an `err` of the precondition phase — the observe socket is only created
on `proceed` — and the error carries the supplied arguments and the
valid-mode alternatives. -/
theorem load_precondition_errors (file mode : String)
    (options : Option (List String)) (caller : String) :
    load false file mode options caller =
      .err (errorMessage 8 caller (some (loadArgs file mode options)) none
        (some modeDescriptions)) ∧
    (mode ∉ ["replace", "append", "append-play"] →
      load true file mode options caller =
        .err (errorMessage 1 caller (some (loadArgs file mode options)) none
          (some modeDescriptions))) := by
  constructor
  · simp [load]
  · intro h
    simp [load, h]

/-- Witness for C9: mode `shuffle` is not recognized, and the call with it
while running throws the invalid-argument object; the not-running branch is
also applied at a concrete input. -/
theorem load_precondition_errors_witness :
    ("shuffle" ∉ ["replace", "append", "append-play"]) ∧
    load true "f.mp3" "shuffle" none "load()" =
      .err (errorMessage 1 "load()" (some (loadArgs "f.mp3" "shuffle" none)) none
        (some modeDescriptions)) ∧
    load false "f.mp3" "replace" none "load()" =
      .err (errorMessage 8 "load()" (some (loadArgs "f.mp3" "replace" none)) none
        (some modeDescriptions)) :=
  ⟨by decide,
   (load_precondition_errors "f.mp3" "shuffle" none "load()").2 (by decide),
   (load_precondition_errors "f.mp3" "replace" none "load()").1⟩

/-- Claim C6: after the load command, mode `append` — and mode
`append-play` with a queried playlist length strictly greater than one —
concludes silently: the branch returns at once (boolean component `true`,
so no data handler is ever installed and no player event is awaited) with
the observe socket destroyed; at the boundary, `append-play` with playlist
length exactly 1 does not take this branch. -/
theorem load_append_silent_success :
    (∀ n : Nat, phaseOne "append" n = (⟨true, 0, false⟩, true)) ∧
    (∀ n : Nat, n > 1 → phaseOne "append-play" n = (⟨true, 0, false⟩, true)) ∧
    phaseOne "append-play" 1 = (⟨false, 0, false⟩, false) := by
  refine ⟨fun n => by simp [phaseOne], fun n h => ?_, by decide⟩
  simp [phaseOne, h]

/-- Witness for C6: the spec's literal scenario, playlist length 3, and the
boundary case, playlist length exactly 1 with mode `append-play`. -/
theorem load_append_silent_success_witness :
    phaseOne "append" 3 = (⟨true, 0, false⟩, true) ∧
    ((3 : Nat) > 1 ∧ phaseOne "append-play" 3 = (⟨true, 0, false⟩, true)) ∧
    phaseOne "append-play" 1 = (⟨false, 0, false⟩, false) :=
  ⟨load_append_silent_success.1 3,
   ⟨by decide, load_append_silent_success.2.1 3 (by decide)⟩,
   load_append_silent_success.2.2⟩

/-- Claim C4: in mode `replace` the session enters the waiting phase, and
from the fresh handler state: the deliveries `start-file` then
`file-loaded` end with the observe socket destroyed and nothing thrown
(success); `start-file` then `end-file` end with the socket destroyed and
the error-code-0 playback-failure object thrown (failed); a `file-loaded`
or `end-file` delivered before any `start-file` leaves the socket alive
with nothing thrown — neither conclusion. -/
theorem load_replace_event_sequences (n : Nat) (file caller : String) :
    phaseOne "replace" n = (⟨false, 0, false⟩, false) ∧
    runDeliveries file caller ⟨false, 0, false⟩
        [[.event "start-file"], [.event "file-loaded"]] =
      (⟨true, 2, true⟩, none) ∧
    runDeliveries file caller ⟨false, 0, false⟩
        [[.event "start-file"], [.event "end-file"]] =
      (⟨true, 2, true⟩,
       some (.endFileErr (errorMessage 0 caller (some [file]) none none))) ∧
    runDeliveries file caller ⟨false, 0, false⟩ [[.event "file-loaded"]] =
      (⟨false, 1, false⟩, none) ∧
    runDeliveries file caller ⟨false, 0, false⟩ [[.event "end-file"]] =
      (⟨false, 1, false⟩, none) := by
  refine ⟨by simp [phaseOne], rfl, rfl, rfl, rfl⟩

/-- The message loop of the load data handler never changes the poll
counter, whichever branch fires. -/
theorem processObsMsg_timeout (file caller : String) (st : ObsState) (m : ObsMsg) :
    (processObsMsg file caller st m).1.timeout = st.timeout := by
  cases m with
  | empty => rfl
  | malformed => rfl
  | nonEvent => rfl
  | event name =>
    simp only [processObsMsg]
    split
    · rfl
    · split
      · rfl
      · split
        · rfl
        · rfl

/-- Folding the message loop over a whole delivery preserves the poll
counter, also when an exception escapes mid-loop. -/
theorem obsFold_timeout (file caller : String) (msgs : List ObsMsg) (st : ObsState) :
    (obsFold file caller st msgs).1.timeout = st.timeout := by
  induction msgs generalizing st with
  | nil => rfl
  | cons m rest ih =>
    have hm := processObsMsg_timeout file caller st m
    simp only [obsFold]
    rcases hp : processObsMsg file caller st m with ⟨st1, o⟩
    rw [hp] at hm
    cases o with
    | none => simpa using (ih st1).trans hm
    | some t => simpa using hm

/-- Claim C5: every firing of the load data handler increments the poll
counter by exactly one, whatever the delivery contained; when the counter
was 10 and the message loop ends without a terminal throw, the eleventh
firing destroys the observe socket and throws the error-code-5 timeout
object; and while the incremented counter is still at most 10 such a firing
concludes nothing. -/
theorem load_poll_counter_bound (file caller : String) (st st' : ObsState)
    (chunk : List ObsMsg) :
    ((onData file caller st chunk).1.timeout = st.timeout + 1) ∧
    (st.timeout = 10 →
      obsFold file caller { st with timeout := st.timeout + 1 } chunk = (st', none) →
      onData file caller st chunk =
        ({ st' with destroyed := true },
         some (.timeoutErr (errorMessage 5 caller (some [file]) none none)))) ∧
    (st.timeout + 1 ≤ 10 →
      obsFold file caller { st with timeout := st.timeout + 1 } chunk = (st', none) →
      onData file caller st chunk = (st', none)) := by
  refine ⟨?_, ?_, ?_⟩
  · have hf := obsFold_timeout file caller chunk { st with timeout := st.timeout + 1 }
    simp only [onData]
    rcases hp : obsFold file caller { st with timeout := st.timeout + 1 } chunk with ⟨st1, o⟩
    rw [hp] at hf
    cases o with
    | none =>
      simp only at hf ⊢
      split
      · simpa using hf
      · simpa using hf
    | some t => simpa using hf
  · intro h10 hrun
    have hf := obsFold_timeout file caller chunk { st with timeout := st.timeout + 1 }
    rw [hrun] at hf
    simp only at hf
    simp only [onData, hrun]
    rw [if_pos]
    omega
  · intro hle hrun
    have hf := obsFold_timeout file caller chunk { st with timeout := st.timeout + 1 }
    rw [hrun] at hf
    simp only at hf
    simp only [onData, hrun]
    rw [if_neg]
    omega

/-- Witness for C5: from counter 10, an eleventh delivery carrying a single
non-event message concludes with the timeout throw and a destroyed socket. -/
theorem load_poll_counter_bound_witness :
    ((⟨false, 10, false⟩ : ObsState).timeout = 10) ∧
    obsFold "f.mp3" "load()" ⟨false, 11, false⟩ [ObsMsg.nonEvent] =
      (⟨false, 11, false⟩, none) ∧
    onData "f.mp3" "load()" ⟨false, 10, false⟩ [ObsMsg.nonEvent] =
      (⟨true, 11, false⟩,
       some (.timeoutErr (errorMessage 5 "load()" (some ["f.mp3"]) none none))) :=
  ⟨rfl, rfl,
   (load_poll_counter_bound "f.mp3" "load()" ⟨false, 10, false⟩ ⟨false, 11, false⟩
     [ObsMsg.nonEvent]).2.1 rfl rfl⟩

/-- Claim C1: dispatching a response whose truthy request id matches a
registered PendingRequest completes it exactly once — with the response's
data payload when the error field is the literal `success`, otherwise
failing it with the peer's reported error value and the stored original
command arguments — removes exactly that entry from the table (its id looks
up to nothing afterwards while every other id is untouched), appends
exactly one completion record, and emits no event for it. -/
theorem dispatch_matching_response (st : IpcState) (j : JsonMsg) (id : String)
    (req : ipcRequest) (hid : j.request_id = some id) (hne : id ≠ "")
    (hreg : st.ipcRequests.lookup id = some req) :
    processMsg st (.parsed j) =
      ({ st with
          ipcRequests := st.ipcRequests.erase id
          completions := st.completions ++
            [(id, if j.error = some "success" then Completion.resolved j.data
                  else Completion.failedWith j.error req.args)] }, none) ∧
    (st.ipcRequests.erase id).lookup id = none ∧
    (∀ id2, id2 ≠ id →
      (st.ipcRequests.erase id).lookup id2 = st.ipcRequests.lookup id2) := by
  refine ⟨?_, AList.lookup_erase id st.ipcRequests,
    fun id2 h2 => AList.lookup_erase_ne h2⟩
  by_cases hs : j.error = some "success" <;>
    simp [processMsg, hid, hne, hreg, hs]

/-- Witness for C1: dispatching the success response for the registered id
`r1` of `stPending` resolves it with the payload and empties its slot. -/
theorem dispatch_matching_response_witness :
    ((⟨some "r1", some "success", some "50"⟩ : JsonMsg).request_id = some "r1") ∧
    ("r1" ≠ "") ∧
    stPending.ipcRequests.lookup "r1" = some ⟨["volume"]⟩ ∧
    (processMsg stPending (.parsed ⟨some "r1", some "success", some "50"⟩) =
      ({ stPending with
          ipcRequests := stPending.ipcRequests.erase "r1"
          completions := stPending.completions ++
            [("r1", if (some "success" : Option String) = some "success"
                    then Completion.resolved (some "50")
                    else Completion.failedWith (some "success") ["volume"])] }, none) ∧
     (stPending.ipcRequests.erase "r1").lookup "r1" = none ∧
     (∀ id2, id2 ≠ "r1" →
       (stPending.ipcRequests.erase "r1").lookup id2 =
         stPending.ipcRequests.lookup id2)) :=
  ⟨rfl, by decide, by decide,
   dispatch_matching_response stPending ⟨some "r1", some "success", some "50"⟩
     "r1" ⟨["volume"]⟩ rfl (by decide) (by decide)⟩

/-- Claim C2 is refuted by the code: `send` on an open socket with a
successful write deletes its freshly registered PendingRequest immediately
(ipcInterface.ts line 264), before any response can be dispatched.  At the
failing input — a connected state with an empty table — the call returns
without throwing, has written the message, and the table holds nothing. -/
theorem send_deletes_pending_after_write :
    (send stOpen ["loadfile", "f.mp3", "replace"] "r1" "load()" true).2 = none ∧
    (send stOpen ["loadfile", "f.mp3", "replace"] "r1" "load()" true).1.written =
      [(["loadfile", "f.mp3", "replace"], "r1")] ∧
    (send stOpen ["loadfile", "f.mp3", "replace"] "r1" "load()" true).1.ipcRequests.lookup
      "r1" = none := by
  refine ⟨rfl, rfl, ?_⟩
  decide

/-- Claim C3 is refuted by the code: after a peer-initiated close with one
request pending, that PendingRequest is still registered — `closeHandler`
fails nothing. -/
theorem closeHandler_abandons_pending_cex :
    ¬ ((closeHandler stPending).ipcRequests.lookup "r1" = none) := by
  decide

/-- Claim C3 amended: a peer-initiated close only destroys the socket; the
pending-request table, the completion log and the event log are untouched,
so every pending request remains registered and none is failed. -/
theorem closeHandler_only_destroys (st : IpcState) :
    (closeHandler st).destroyed = true ∧
    (closeHandler st).ipcRequests = st.ipcRequests ∧
    (closeHandler st).completions = st.completions ∧
    (closeHandler st).events = st.events :=
  ⟨rfl, rfl, rfl, rfl⟩

/-- Processing a chunk is the composition of processing a crash-free part
and then the rest, from the state the first part reached. -/
theorem dataHandler_append (pre : List Msg) (st st1 : IpcState) (rest : List Msg)
    (h : dataHandler st pre = (st1, none)) :
    dataHandler st (pre ++ rest) = dataHandler st1 rest := by
  induction pre generalizing st with
  | nil =>
    simp only [dataHandler] at h
    cases h
    rfl
  | cons m pre ih =>
    simp only [dataHandler] at h ⊢
    rcases hp : processMsg st m with ⟨st', o⟩
    rw [hp] at h
    cases o with
    | none => exact ih st' h
    | some e => simp at h

/-- Claim C7 is refuted by the code: a chunk holding a malformed message
followed by a valid success response for the registered id `r1` makes
dispatch throw, and the sibling response is never delivered — `r1` stays
pending. -/
theorem dataHandler_bad_message_cex :
    ¬ ((dataHandler stPending
          [Msg.malformed, Msg.parsed ⟨some "r1", some "success", some "50"⟩]).2 = none ∧
       (dataHandler stPending
          [Msg.malformed, Msg.parsed ⟨some "r1", some "success", some "50"⟩]).1.ipcRequests.lookup
          "r1" = none) := by
  decide

/-- Claim C7 amended: one bad message — unparseable JSON, or a truthy
request id matching no registered PendingRequest — makes dispatch throw at
that message: the siblings before it in the chunk are processed normally,
the siblings after it are not processed at all, and the bad message itself
removes no table entry, completes no outcome and emits no event (the state
at escape is exactly the state after the preceding siblings). -/
theorem dataHandler_bad_message_aborts (st : IpcState) (pre post : List Msg)
    (st1 : IpcState) (h : dataHandler st pre = (st1, none)) :
    (dataHandler st (pre ++ Msg.malformed :: post) =
      (st1, some DispatchThrow.jsonParseError)) ∧
    (∀ (j : JsonMsg) (id : String), j.request_id = some id → id ≠ "" →
      st1.ipcRequests.lookup id = none →
      dataHandler st (pre ++ Msg.parsed j :: post) =
        (st1, some (DispatchThrow.noSuchRequest id))) := by
  constructor
  · rw [dataHandler_append pre st st1 _ h]
    rfl
  · intro j id hid hne hmiss
    rw [dataHandler_append pre st st1 _ h]
    simp only [dataHandler]
    rcases hp : processMsg st1 (Msg.parsed j) with ⟨st2, o⟩
    have : processMsg st1 (Msg.parsed j) = (st1, some (.noSuchRequest id)) := by
      by_cases hs : j.error = some "success" <;>
        simp [processMsg, hid, hne, hmiss, hs]
    rw [this] at hp
    cases hp
    rfl

/-- Witness for C7's amended claim: from `stPending`, a lone malformed
message throws the parse error, and a lone response with the unregistered
id `zz` throws the lookup error; both leave the state untouched. -/
theorem dataHandler_bad_message_aborts_witness :
    (dataHandler stPending [] = (stPending, none)) ∧
    stPending.ipcRequests.lookup "zz" = none ∧
    dataHandler stPending ([] ++ Msg.malformed :: []) =
      (stPending, some DispatchThrow.jsonParseError) ∧
    dataHandler stPending ([] ++ Msg.parsed ⟨some "zz", some "success", none⟩ :: []) =
      (stPending, some (DispatchThrow.noSuchRequest "zz")) :=
  ⟨rfl, by decide,
   (dataHandler_bad_message_aborts stPending [] [] stPending rfl).1,
   (dataHandler_bad_message_aborts stPending [] [] stPending rfl).2
     ⟨some "zz", some "success", none⟩ "zz" rfl (by decide) (by decide)⟩

end NodeMPV
